import Mathlib

/-!
Shallow embedding of `src/src/services/dashboard.service.ts`
(class `DashboardService`) and verification of the specification claims.

Modelling conventions:
* BSON dates are modelled by `SimpleDate` (year, zero-based month index,
  zero-based day index); the aggregation operators `$month` / `$dayOfMonth`
  return the one-based month / day number, as in MongoDB.
* Monetary amounts are modelled as `Int`.
* A MongoDB aggregation over the `dashboards` collection is modelled as a
  `filter` (the `$match` stage, document-level) followed by a `map`
  (the `$project` stage) over a list of `DashboardDoc`.
* JavaScript `Array.prototype.indexOf` (which returns `-1` when the element
  is absent) is modelled by `jsIndexOf`; it is evaluated at
  pipeline-construction time, exactly as in the source, so the string
  literal "$$month" is looked up in the month list as a plain string.
* `findByIdAndUpdate` with `$addToSet` is modelled by `updateById` together
  with the `addToSet*` functions (append only when no value-equal element
  is present); it locates the document by its `_id` field (`idField`),
  while the two aggregation reads match on the `user` field, as in the
  source.
-/

namespace BeBasicSetup

/-- A calendar date: year, zero-based month index (0 = January), zero-based
day index (0 = day 1).  The `Fin` bounds reflect that a real BSON date always
has a month in 1..12 and a day-of-month in 1..31. -/
structure SimpleDate where
  year : Nat
  monthIdx : Fin 12
  dayIdx : Fin 31
deriving DecidableEq, Repr

/-- MongoDB `$month`: one-based calendar month number (1 = January). -/
def SimpleDate.monthNumber (d : SimpleDate) : Nat := d.monthIdx.val + 1

/-- MongoDB `$dayOfMonth`: one-based day of the month. -/
def SimpleDate.dayNumber (d : SimpleDate) : Nat := d.dayIdx.val + 1

/-- Order-isomorphic numeric key for chronological comparison of dates. -/
def SimpleDate.key (d : SimpleDate) : Nat :=
  d.year * 372 + d.monthIdx.val * 31 + d.dayIdx.val

/-- Chronological `≤` on dates (models `$gte` / `$lte` on BSON dates). -/
def dateLe (a b : SimpleDate) : Bool := decide (a.key ≤ b.key)

/-- `IDashboardRevenue`: `{ amount, date, source }`. -/
structure RevenueEntry where
  amount : Int
  date : SimpleDate
  source : String
deriving DecidableEq, Repr

/-- `IDashboardReceivable`: `{ amount, date, status, client }`. -/
structure ReceivableEntry where
  amount : Int
  date : SimpleDate
  status : String
  client : String
deriving DecidableEq, Repr

/-- `IDashboardExpense`: `{ amount, date, category }`. -/
structure ExpenseEntry where
  amount : Int
  date : SimpleDate
  category : String
deriving DecidableEq, Repr

/-- One document of the `dashboards` collection.  `idField` models the
MongoDB `_id` (targeted by `findByIdAndUpdate`), `user` the `user` field
(targeted by the `$match` of the two aggregation reads). -/
structure DashboardDoc where
  idField : String
  user : String
  revenues : List RevenueEntry
  receivables : List ReceivableEntry
  expenses : List ExpenseEntry
deriving DecidableEq, Repr

/-- Minimal BSON value universe, enough to express the aggregation `$eq`
between the array `'$receivables.status'` (an array of strings) and the
scalar `'Pending'`. -/
inductive BVal where
  | vstr : String → BVal
  | varr : List String → BVal
deriving DecidableEq, Repr

/-- Modelled from the spec: the month-list utility `getMonths`
(`src/utils/getMonths.ts` is not under `src/`): an ordered, locale-fixed
list of the 12 English month names. -/
def getMonths : List String :=
  ["January", "February", "March", "April", "May", "June",
   "July", "August", "September", "October", "November", "December"]

/-- `const months = getMonths()` (module-level constant of the service). -/
def months : List String := getMonths

/-- `const expenseTypes = [...]` (module-level constant of the service). -/
def expenseTypes : List String :=
  ["Transfer between cards", "Cash withdrawn", "Food", "Taxes", "Rent"]

/-- Modelled from the spec: the day-label utility `getDaysList`
(`src/utils/getDaysList.ts` is not under `src/`): every day-of-month number
as a zero-padded two-character string, "01" .. "31". -/
def getDaysList : List String :=
  (List.range 31).map (fun i => if i + 1 < 10 then "0" ++ toString (i + 1) else toString (i + 1))

/-- JavaScript `Array.prototype.indexOf` on a string list: the zero-based
index of the first occurrence, or `-1` when the element is absent. -/
def jsIndexOfAux (s : String) : List String → Int → Int
  | [], _ => -1
  | x :: xs, i => if x = s then i else jsIndexOfAux s xs (i + 1)

/-- `xs.indexOf(s)` in JavaScript. -/
def jsIndexOf (xs : List String) (s : String) : Int := jsIndexOfAux s xs 0

/-- MongoDB `$toInt` on the numeric day labels produced by `getDaysList`. -/
def jsToInt (s : String) : Nat := (s.toNat?).getD 0

/-- Modelled from the spec: the filter value constructed by
`createDateFilter(date, month, year)` (`src/utils/date.ts` is not under
`src/`): exact day when `date` is given, else a month+year or year span when
`year` is given, else no restriction. -/
inductive DateFilter where
  | noFilter
  | exactDay (d : SimpleDate)
  | monthYear (m : Nat) (y : Nat)
  | yearOnly (y : Nat)
deriving DecidableEq, Repr

/-- Modelled from the spec: the date predicate of a `DateFilter` on a single
entry date ("match entries whose date equals that day; else ... within that
month or year span"). -/
def entryDateMatches (f : DateFilter) (dt : SimpleDate) : Bool :=
  match f with
  | .noFilter => true
  | .exactDay d => decide (dt = d)
  | .monthYear m y => decide (dt.monthNumber = m) && decide (dt.year = y)
  | .yearOnly y => decide (dt.year = y)

/-- Modelled from the spec: the document-level application of the date
filter inside the `$match` stage of `getOverview` (MongoDB matches an
array-field condition when some array element satisfies it): a dashboard
document matches when some entry of one of its three collections satisfies
the date predicate; with no filter every document matches. -/
def docMatchesDateFilter (f : DateFilter) (d : DashboardDoc) : Bool :=
  match f with
  | .noFilter => true
  | _ =>
    d.revenues.any (fun r => entryDateMatches f r.date)
      || d.receivables.any (fun r => entryDateMatches f r.date)
      || d.expenses.any (fun e => entryDateMatches f e.date)

/-- The row produced by the `$project` stage of `getOverview`. -/
structure OverviewRow where
  totalRevenue : Int
  totalReceivables : Int
  pendingReceivables : Int
  totalExpenses : Int
deriving DecidableEq, Repr

/-- The `$project` stage of `getOverview`, per matched document.
`pendingReceivables` is computed exactly as in the source:
`$sum` of a single `$cond` whose condition is the aggregation `$eq` between
the path `'$receivables.status'` (an array of the statuses) and the scalar
string `'Pending'`. -/
def overviewRow (d : DashboardDoc) : OverviewRow :=
  { totalRevenue := (d.revenues.map (fun r => r.amount)).sum
    totalReceivables := (d.receivables.map (fun r => r.amount)).sum
    pendingReceivables :=
      if BVal.varr (d.receivables.map (fun r => r.status)) = BVal.vstr "Pending"
      then (d.receivables.map (fun r => r.amount)).sum
      else 0
    totalExpenses := (d.expenses.map (fun e => e.amount)).sum }

/-- `DashboardService.getOverview`: `$match` on `user` (plus the optional
date filter) followed by the `$project` stage, over the collection state. -/
def getOverview (state : List DashboardDoc) (userId : String) (f : DateFilter) :
    List OverviewRow :=
  (state.filter (fun d => decide (d.user = userId) && docMatchesDateFilter f d)).map overviewRow

/-- The spec's claimed summary row ("Computes, over the filtered entry set"):
each total is the sum over exactly the entries matching the filter predicate,
and `pendingReceivables` is further restricted to status `"Pending"`. -/
def specOverviewRow (f : DateFilter) (d : DashboardDoc) : OverviewRow :=
  { totalRevenue :=
      ((d.revenues.filter (fun r => entryDateMatches f r.date)).map (fun r => r.amount)).sum
    totalReceivables :=
      ((d.receivables.filter (fun r => entryDateMatches f r.date)).map (fun r => r.amount)).sum
    pendingReceivables :=
      ((d.receivables.filter
          (fun r => entryDateMatches f r.date && decide (r.status = "Pending"))).map
        (fun r => r.amount)).sum
    totalExpenses :=
      ((d.expenses.filter (fun e => entryDateMatches f e.date)).map (fun e => e.amount)).sum }

/-- The bucketing condition of the monthly line chart, exactly as built in
the source: `$eq [ { $month: '$$this.date' }, months.indexOf('$$month') + 1 ]`,
where `months.indexOf('$$month')` is JavaScript evaluated at
pipeline-construction time on the literal string `"$$month"`. -/
def monthBucketCond (dt : SimpleDate) : Bool :=
  decide ((dt.monthNumber : Int) = jsIndexOf months "$$month" + 1)

/-- One value of the line chart's `revenueDataSet`: the `$reduce` over
`'$revenues'` for one label (the label variable is bound but, as in the
source, never consulted by the condition). -/
def lineRevenueBucket (revs : List RevenueEntry) (_month : String) : Int :=
  revs.foldl (fun acc r => acc + (if monthBucketCond r.date then r.amount else 0)) 0

/-- One value of the line chart's `expensesDataSet`. -/
def lineExpenseBucket (exps : List ExpenseEntry) (_month : String) : Int :=
  exps.foldl (fun acc e => acc + (if monthBucketCond e.date then e.amount else 0)) 0

/-- One value of the doughnut's `datasets`: the `$reduce` over `'$expenses'`
with condition `$eq ['$$expenseType', '$$this.category']`. -/
def doughnutBucket (exps : List ExpenseEntry) (expenseType : String) : Int :=
  exps.foldl (fun acc e => acc + (if expenseType = e.category then e.amount else 0)) 0

/-- One value of the bar chart's `revenueDataSet`: condition
`$eq [ { $dayOfMonth: '$$this.date' }, { $toInt: '$$day' } ]`. -/
def barRevenueBucket (revs : List RevenueEntry) (day : String) : Int :=
  revs.foldl (fun acc r => acc + (if r.date.dayNumber = jsToInt day then r.amount else 0)) 0

/-- One value of the bar chart's `expensesDataSet`. -/
def barExpenseBucket (exps : List ExpenseEntry) (day : String) : Int :=
  exps.foldl (fun acc e => acc + (if e.date.dayNumber = jsToInt day then e.amount else 0)) 0

/-- `revenuesAndExpensesLineChart` of the `getCharts` projection. -/
structure LineChart where
  labels : List String
  revenueDataSet : List Int
  expensesDataSet : List Int
deriving DecidableEq, Repr

/-- `expensesDoughnut` of the `getCharts` projection. -/
structure Doughnut where
  labels : List String
  datasets : List Int
deriving DecidableEq, Repr

/-- `currentMonthExpensesAndRevenuesBarChart` of the `getCharts` projection. -/
structure BarChart where
  currentMonth : Nat
  labels : List String
  revenueDataSet : List Int
  expensesDataSet : List Int
deriving DecidableEq, Repr

/-- The row produced by the `$project` stage of `getCharts`. -/
structure ChartsRow where
  revenuesAndExpensesLineChart : LineChart
  expensesDoughnut : Doughnut
  currentMonthExpensesAndRevenuesBarChart : BarChart
deriving DecidableEq, Repr

/-- The `$project` stage of `getCharts`, per matched document.
`currentMonth` is the zero-based month of `new Date()`, passed as a
parameter; `labels = months.slice(0, currentMonth)`. -/
def chartsRow (currentMonth : Nat) (d : DashboardDoc) : ChartsRow :=
  let labels := months.take currentMonth
  let dayLabels := getDaysList
  { revenuesAndExpensesLineChart :=
      { labels := labels
        revenueDataSet := labels.map (lineRevenueBucket d.revenues)
        expensesDataSet := labels.map (lineExpenseBucket d.expenses) }
    expensesDoughnut :=
      { labels := expenseTypes
        datasets := expenseTypes.map (doughnutBucket d.expenses) }
    currentMonthExpensesAndRevenuesBarChart :=
      { currentMonth := currentMonth
        labels := dayLabels
        revenueDataSet := dayLabels.map (barRevenueBucket d.revenues)
        expensesDataSet := dayLabels.map (barExpenseBucket d.expenses) } }

/-- The document-level date-range `$match` of `getCharts`: when a bound is
given, the `$and` list requires `'revenues.date'` and `'expenses.date'` to
satisfy it, and MongoDB matches an array-field condition when some array
element satisfies it. -/
def docMatchesRange (startDate endDate : Option SimpleDate) (d : DashboardDoc) : Bool :=
  (match startDate with
   | none => true
   | some s =>
     d.revenues.any (fun r => dateLe s r.date) && d.expenses.any (fun e => dateLe s e.date))
  &&
  (match endDate with
   | none => true
   | some e =>
     d.revenues.any (fun r => dateLe r.date e) && d.expenses.any (fun x => dateLe x.date e))

/-- `DashboardService.getCharts`: `$match` on `user` plus the optional
date-range conditions, followed by the `$project` stage. -/
def getCharts (state : List DashboardDoc) (userId : String)
    (startDate endDate : Option SimpleDate) (currentMonth : Nat) : List ChartsRow :=
  (state.filter
      (fun d => decide (d.user = userId) && docMatchesRange startDate endDate d)).map
    (chartsRow currentMonth)

/-- The spec's claimed line-chart dataset for C2: for each label, the sum of
the amounts of the entries whose calendar month number equals the array
index of that label's month name within the month-name list. -/
def specLineRevenueDataSet (currentMonth : Nat) (d : DashboardDoc) : List Int :=
  (months.take currentMonth).map (fun lbl =>
    ((d.revenues.filter
        (fun r => decide ((r.date.monthNumber : Int) = jsIndexOf months lbl))).map
      (fun r => r.amount)).sum)

/-- Membership of an entry date in the optional inclusive date range. -/
def inDateRange (startDate endDate : Option SimpleDate) (dt : SimpleDate) : Bool :=
  (match startDate with
   | none => true
   | some s => dateLe s dt)
  &&
  (match endDate with
   | none => true
   | some e => dateLe dt e)

/-- The spec's claimed doughnut values for C4: expense entries contributing
to the datasets are restricted to those inside the inclusive date range. -/
def specRestrictedDoughnut (startDate endDate : Option SimpleDate) (d : DashboardDoc) :
    List Int :=
  expenseTypes.map (fun t =>
    ((d.expenses.filter
        (fun e => inDateRange startDate endDate e.date && decide (e.category = t))).map
      (fun e => e.amount)).sum)

/-- The spec's claimed doughnut value for one category label: the sum of the
expense amounts whose category equals that label exactly. -/
def specDoughnutValue (exps : List ExpenseEntry) (t : String) : Int :=
  ((exps.filter (fun e => decide (e.category = t))).map (fun e => e.amount)).sum

/-- The service's error taxonomy (`ApiError` with `Errors.*`). -/
inductive DashError where
  | referenceNotFound
  | dashboardDataNotFound
deriving DecidableEq, Repr

/-- The persisted state visible to the create operations: the user directory
(consulted by the external `UserService`) and the `dashboards` collection. -/
structure AppState where
  users : List String
  dashboards : List DashboardDoc
deriving DecidableEq, Repr

/-- Modelled from the spec: `UserService.getUserById`
(`src/services/user.service.ts` is not under `src/`): fails with a
NotFound-class error when the identifier does not resolve to a user; that
failure propagates unchanged out of the calling create operation. -/
def getUserById (st : AppState) (id : String) : Except DashError Unit :=
  if id ∈ st.users then .ok () else .error .referenceNotFound

/-- `$addToSet { revenues: revenue }`: append only when no value-equal
element is already present. -/
def addToSetRevenue (d : DashboardDoc) (r : RevenueEntry) : DashboardDoc :=
  if r ∈ d.revenues then d else { d with revenues := d.revenues ++ [r] }

/-- `$addToSet { receivables: receivable }`. -/
def addToSetReceivable (d : DashboardDoc) (r : ReceivableEntry) : DashboardDoc :=
  if r ∈ d.receivables then d else { d with receivables := d.receivables ++ [r] }

/-- `$addToSet { expenses: expense }`. -/
def addToSetExpense (d : DashboardDoc) (e : ExpenseEntry) : DashboardDoc :=
  if e ∈ d.expenses then d else { d with expenses := d.expenses ++ [e] }

/-- `Dashboard.findByIdAndUpdate(userId, update, { new: true })`: update the
first document whose `_id` equals `userId`, returning the updated document
and the updated collection, or `none` when no document matches. -/
def updateById (userId : String) (f : DashboardDoc → DashboardDoc) :
    List DashboardDoc → Option (DashboardDoc × List DashboardDoc)
  | [] => none
  | d :: ds =>
    if d.idField = userId then some (f d, f d :: ds)
    else
      match updateById userId f ds with
      | none => none
      | some (r, ds') => some (r, d :: ds')

/-- `DashboardService.createRevenue`: validate `revenue.source` via the user
lookup, then `findByIdAndUpdate` with `$addToSet`; throw
`DashboardDataNotFound` when no document was updated.  The returned pair is
(result, state after the call). -/
def createRevenue (st : AppState) (userId : String) (rev : RevenueEntry) :
    Except DashError DashboardDoc × AppState :=
  match getUserById st rev.source with
  | .error e => (.error e, st)
  | .ok _ =>
    match updateById userId (fun d => addToSetRevenue d rev) st.dashboards with
    | none => (.error .dashboardDataNotFound, st)
    | some (d, ds) => (.ok d, { st with dashboards := ds })

/-- `DashboardService.createReceivable`: validate `receivable.client`, then
`findByIdAndUpdate` with `$addToSet` on `receivables`. -/
def createReceivable (st : AppState) (userId : String) (rc : ReceivableEntry) :
    Except DashError DashboardDoc × AppState :=
  match getUserById st rc.client with
  | .error e => (.error e, st)
  | .ok _ =>
    match updateById userId (fun d => addToSetReceivable d rc) st.dashboards with
    | none => (.error .dashboardDataNotFound, st)
    | some (d, ds) => (.ok d, { st with dashboards := ds })

/-- `DashboardService.createExpense`: no reference validation;
`findByIdAndUpdate` with `$addToSet` on `expenses`. -/
def createExpense (st : AppState) (userId : String) (e : ExpenseEntry) :
    Except DashError DashboardDoc × AppState :=
  match updateById userId (fun d => addToSetExpense d e) st.dashboards with
  | none => (.error .dashboardDataNotFound, st)
  | some (d, ds) => (.ok d, { st with dashboards := ds })

/-! ### Concrete example values used by witnesses and counterexamples -/

/-- January 5, 2024. -/
def dJan5 : SimpleDate := ⟨2024, 0, 4⟩

/-- March 1, 2024. -/
def dMar1 : SimpleDate := ⟨2024, 2, 0⟩

/-- March 10, 2024. -/
def dMar10 : SimpleDate := ⟨2024, 2, 9⟩

/-- March 20, 2024. -/
def dMar20 : SimpleDate := ⟨2024, 2, 19⟩

/-- A dashboard with a single receivable of amount 50 and status "Pending". -/
def pendingDoc : DashboardDoc :=
  { idField := "u1", user := "u1", revenues := [],
    receivables := [⟨50, dJan5, "Pending", "c1"⟩], expenses := [] }

/-- A dashboard with a single January revenue of amount 100. -/
def janRevenueDoc : DashboardDoc :=
  { idField := "u1", user := "u1", revenues := [⟨100, dJan5, "s1"⟩],
    receivables := [], expenses := [] }

/-- A dashboard with one in-range revenue and one in-range plus one
out-of-range "Food" expense relative to a start date of March 10, 2024. -/
def rangeDoc : DashboardDoc :=
  { idField := "u1", user := "u1",
    revenues := [⟨1, dMar20, "s1"⟩], receivables := [],
    expenses := [⟨10, dMar20, "Food"⟩, ⟨5, dMar1, "Food"⟩] }

/-- A dashboard record with all three collections empty. -/
def emptyDoc : DashboardDoc :=
  { idField := "u1", user := "u1", revenues := [], receivables := [], expenses := [] }

/-- A dashboard record whose `user` field is "u1" but whose `_id` is not. -/
def mismatchDoc : DashboardDoc :=
  { idField := "d42", user := "u1", revenues := [], receivables := [], expenses := [] }

/-- An expense whose category is outside the fixed category list. -/
def exExpense : ExpenseEntry := ⟨25, dMar10, "Groceries"⟩

/-- A revenue whose `source` does not resolve to a user of `stEmpty`. -/
def exRevenue : RevenueEntry := ⟨100, dJan5, "missing"⟩

/-- A receivable whose `client` does not resolve to a user of `stEmpty`. -/
def exReceivable : ReceivableEntry := ⟨50, dJan5, "Pending", "missing"⟩

/-- A revenue whose `source` resolves in `stUsersOnly`. -/
def exRevenueOk : RevenueEntry := ⟨100, dJan5, "src1"⟩

/-- A receivable whose `client` resolves in `stUsersOnly`. -/
def exReceivableOk : ReceivableEntry := ⟨50, dJan5, "Pending", "cl1"⟩

/-- A state with no users and no dashboards. -/
def stEmpty : AppState := ⟨[], []⟩

/-- A state with two users and no dashboard records. -/
def stUsersOnly : AppState := ⟨["src1", "cl1"], []⟩

/-- A state whose only dashboard record is `mismatchDoc`. -/
def stMismatch : AppState := ⟨["src1", "cl1"], [mismatchDoc]⟩

end BeBasicSetup

/-! ### Helper lemmas -/

namespace BeBasicSetup

theorem jsIndexOf_months_dollarMonth : jsIndexOf months "$$month" = -1 := by decide

theorem monthBucketCond_false (dt : SimpleDate) : monthBucketCond dt = false := by
  have h : ¬ ((dt.monthNumber : Int) = jsIndexOf months "$$month" + 1) := by
    rw [jsIndexOf_months_dollarMonth]
    simp [SimpleDate.monthNumber]
    omega
  simp [monthBucketCond, h]

theorem lineRevenueBucket_foldl (revs : List RevenueEntry) :
    ∀ acc : Int,
      revs.foldl (fun acc r => acc + (if monthBucketCond r.date then r.amount else 0)) acc
        = acc := by
  induction revs with
  | nil => intro acc; rfl
  | cons r rs ih => intro acc; simp [List.foldl_cons, monthBucketCond_false, ih]

theorem lineExpenseBucket_foldl (exps : List ExpenseEntry) :
    ∀ acc : Int,
      exps.foldl (fun acc e => acc + (if monthBucketCond e.date then e.amount else 0)) acc
        = acc := by
  induction exps with
  | nil => intro acc; rfl
  | cons e es ih => intro acc; simp [List.foldl_cons, monthBucketCond_false, ih]

theorem lineRevenueBucket_zero (revs : List RevenueEntry) (m : String) :
    lineRevenueBucket revs m = 0 := lineRevenueBucket_foldl revs 0

theorem lineExpenseBucket_zero (exps : List ExpenseEntry) (m : String) :
    lineExpenseBucket exps m = 0 := lineExpenseBucket_foldl exps 0

theorem doughnutBucket_foldl (t : String) (exps : List ExpenseEntry) :
    ∀ acc : Int,
      exps.foldl (fun acc e => acc + (if t = e.category then e.amount else 0)) acc
        = acc + specDoughnutValue exps t := by
  induction exps with
  | nil => intro acc; simp [specDoughnutValue]
  | cons e es ih =>
    intro acc
    rw [List.foldl_cons, ih]
    by_cases h : t = e.category
    · simp [specDoughnutValue, List.filter_cons, h.symm]
      ring
    · have h2 : ¬ (e.category = t) := fun hh => h hh.symm
      simp [specDoughnutValue, List.filter_cons, h, h2]

theorem doughnutBucket_eq_spec (exps : List ExpenseEntry) (t : String) :
    doughnutBucket exps t = specDoughnutValue exps t := by
  have := doughnutBucket_foldl t exps 0
  simpa [doughnutBucket] using this

theorem updateById_eq_none (u : String) (f : DashboardDoc → DashboardDoc) :
    ∀ ds : List DashboardDoc, (∀ d ∈ ds, d.idField ≠ u) → updateById u f ds = none := by
  intro ds
  induction ds with
  | nil => intro _; rfl
  | cons d ds ih =>
    intro h
    have hd : ¬ (d.idField = u) := h d (List.mem_cons_self d ds)
    have hrest := ih (fun x hx => h x (List.mem_cons_of_mem d hx))
    simp [updateById, hd, hrest]

theorem updateById_again (u : String) (f : DashboardDoc → DashboardDoc)
    (hid : ∀ x, (f x).idField = x.idField)
    (hidem : ∀ x, f (f x) = f x) :
    ∀ (ds : List DashboardDoc) (d : DashboardDoc) (ds₂ : List DashboardDoc),
      updateById u f ds = some (d, ds₂) → updateById u f ds₂ = some (d, ds₂) := by
  intro ds
  induction ds with
  | nil => intro d ds₂ h; simp [updateById] at h
  | cons x xs ih =>
    intro d ds₂ h
    by_cases hx : x.idField = u
    · simp only [updateById, if_pos hx, Option.some.injEq, Prod.mk.injEq] at h
      obtain ⟨hd, hds⟩ := h
      subst hd
      subst hds
      have hfx : (f x).idField = u := by rw [hid]; exact hx
      simp only [updateById, if_pos hfx, hidem]
    · simp only [updateById, if_neg hx] at h
      cases hrec : updateById u f xs with
      | none => rw [hrec] at h; simp at h
      | some p =>
        obtain ⟨r, xs₂⟩ := p
        rw [hrec] at h
        simp only [Option.some.injEq, Prod.mk.injEq] at h
        obtain ⟨hd, hds⟩ := h
        subst hd
        subst hds
        simp only [updateById, if_neg hx, ih r xs₂ hrec]

theorem addToSetExpense_idField (x : DashboardDoc) (ex : ExpenseEntry) :
    (addToSetExpense x ex).idField = x.idField := by
  unfold addToSetExpense
  split <;> rfl

theorem addToSetExpense_idem (x : DashboardDoc) (ex : ExpenseEntry) :
    addToSetExpense (addToSetExpense x ex) ex = addToSetExpense x ex := by
  by_cases h : ex ∈ x.expenses
  · simp [addToSetExpense, h]
  · simp [addToSetExpense, h, List.mem_append]

theorem docMatchesRange_iff (s e : Option SimpleDate) (d : DashboardDoc) :
    docMatchesRange s e d = true ↔
      (∀ sd, s = some sd →
          (∃ r ∈ d.revenues, sd.key ≤ r.date.key) ∧ (∃ x ∈ d.expenses, sd.key ≤ x.date.key))
        ∧ (∀ ed, e = some ed →
            (∃ r ∈ d.revenues, r.date.key ≤ ed.key)
              ∧ (∃ x ∈ d.expenses, x.date.key ≤ ed.key)) := by
  cases s <;> cases e <;>
    simp [docMatchesRange, dateLe, List.any_eq_true]

theorem filter_user_eq_nil (ds : List DashboardDoc) (u : String)
    (p : DashboardDoc → Bool) (huser : ∀ d ∈ ds, d.user ≠ u) :
    ds.filter (fun d => decide (d.user = u) && p d) = [] := by
  rw [List.filter_eq_nil_iff]
  intro d hd
  simp [huser d hd]

end BeBasicSetup

/-! ### Claim theorems -/

namespace BeBasicSetup

/-- Claim C1 (code-bug evidence, evaluated at the failing input): with no
date filter and a single receivable of amount 50 and status "Pending",
`getOverview` returns `pendingReceivables = 0`, because the aggregation
`$eq` compares the array `'$receivables.status'` with the scalar string
`'Pending'` and is therefore never true; the spec-claimed summary
(`specOverviewRow`) returns 50 for the same input. -/
theorem getOverview_pendingReceivables_bug :
    getOverview [pendingDoc] "u1" DateFilter.noFilter
        = [{ totalRevenue := 0, totalReceivables := 50,
             pendingReceivables := 0, totalExpenses := 0 }]
      ∧ (specOverviewRow DateFilter.noFilter pendingDoc).pendingReceivables = 50
      ∧ pendingDoc.receivables = [⟨50, dJan5, "Pending", "c1"⟩] := by
  refine ⟨?_, ?_, ?_⟩ <;> decide

/-- Claim C2 (counterexample): for the matched record `janRevenueDoc`
(one January revenue of 100) with `currentMonth = 3`, the monthly line
chart's `revenueDataSet` computed by `getCharts` is `[0, 0, 0]`, while the
bucketing claimed by the spec (sum over entries whose calendar month number
equals the array index of the label's month name, `specLineRevenueDataSet`)
would give `[0, 100, 0]`; the two disagree. -/
theorem lineChart_label_index_counterexample :
    getCharts [janRevenueDoc] "u1" none none 3 = [chartsRow 3 janRevenueDoc]
      ∧ (chartsRow 3 janRevenueDoc).revenuesAndExpensesLineChart.revenueDataSet = [0, 0, 0]
      ∧ specLineRevenueDataSet 3 janRevenueDoc = [0, 100, 0]
      ∧ (chartsRow 3 janRevenueDoc).revenuesAndExpensesLineChart.revenueDataSet
          ≠ specLineRevenueDataSet 3 janRevenueDoc :=
  ⟨rfl, rfl, by decide, by decide⟩

/-- Claim C2 (amended): in `getCharts`, the per-month bucketing compares the
entry's calendar month number with `months.indexOf('$$month') + 1`, where
`'$$month'` is the literal JavaScript string (not the label value), i.e.
with the constant 0; hence for every matched record both monthly datasets
are lists of zeros, one zero per label. -/
theorem lineChart_dataSets_constant_zero (state : List DashboardDoc) (userId : String)
    (s e : Option SimpleDate) (cm : Nat) (row : ChartsRow)
    (hrow : row ∈ getCharts state userId s e cm) :
    row.revenuesAndExpensesLineChart.revenueDataSet = List.replicate (min cm 12) 0
      ∧ row.revenuesAndExpensesLineChart.expensesDataSet = List.replicate (min cm 12) 0 := by
  obtain ⟨d, hd, hrowEq⟩ := List.mem_map.mp hrow
  subst hrowEq
  have hrev : (chartsRow cm d).revenuesAndExpensesLineChart.revenueDataSet
      = (months.take cm).map (lineRevenueBucket d.revenues) := rfl
  have hexp : (chartsRow cm d).revenuesAndExpensesLineChart.expensesDataSet
      = (months.take cm).map (lineExpenseBucket d.expenses) := rfl
  have hlen : (months.take cm).length = min cm 12 := by
    rw [List.length_take]
    rfl
  constructor
  · rw [hrev, List.eq_replicate_iff]
    refine ⟨by rw [List.length_map, hlen], ?_⟩
    intro b hb
    obtain ⟨lbl, _, hlbl⟩ := List.mem_map.mp hb
    rw [← hlbl]
    exact lineRevenueBucket_zero d.revenues lbl
  · rw [hexp, List.eq_replicate_iff]
    refine ⟨by rw [List.length_map, hlen], ?_⟩
    intro b hb
    obtain ⟨lbl, _, hlbl⟩ := List.mem_map.mp hb
    rw [← hlbl]
    exact lineExpenseBucket_zero d.expenses lbl

/-- Witness for the amended C2 theorem at a concrete input. -/
theorem lineChart_dataSets_constant_zero_witness :
    (chartsRow 3 janRevenueDoc).revenuesAndExpensesLineChart.revenueDataSet
        = List.replicate (min 3 12) 0
      ∧ (chartsRow 3 janRevenueDoc).revenuesAndExpensesLineChart.expensesDataSet
        = List.replicate (min 3 12) 0 :=
  lineChart_dataSets_constant_zero [janRevenueDoc] "u1" none none 3
    (chartsRow 3 janRevenueDoc) (List.mem_singleton.mpr rfl)

/-- Claim C3: for every state, user, date-range filter and current month,
every element of the monthly line chart's `revenueDataSet` and
`expensesDataSet` of every row returned by `getCharts` equals 0: the
bucketing condition compares the one-based entry month with
`months.indexOf("$$month") + 1 = -1 + 1 = 0`, which no entry month ever
equals. -/
theorem lineChart_dataSets_all_zero (state : List DashboardDoc) (userId : String)
    (s e : Option SimpleDate) (cm : Nat) (row : ChartsRow)
    (hrow : row ∈ getCharts state userId s e cm) :
    (∀ x ∈ row.revenuesAndExpensesLineChart.revenueDataSet, x = 0)
      ∧ (∀ x ∈ row.revenuesAndExpensesLineChart.expensesDataSet, x = 0) := by
  obtain ⟨d, hd, hrowEq⟩ := List.mem_map.mp hrow
  subst hrowEq
  have hrev : (chartsRow cm d).revenuesAndExpensesLineChart.revenueDataSet
      = (months.take cm).map (lineRevenueBucket d.revenues) := rfl
  have hexp : (chartsRow cm d).revenuesAndExpensesLineChart.expensesDataSet
      = (months.take cm).map (lineExpenseBucket d.expenses) := rfl
  constructor
  · intro x hx
    rw [hrev] at hx
    obtain ⟨lbl, _, hlbl⟩ := List.mem_map.mp hx
    rw [← hlbl]
    exact lineRevenueBucket_zero d.revenues lbl
  · intro x hx
    rw [hexp] at hx
    obtain ⟨lbl, _, hlbl⟩ := List.mem_map.mp hx
    rw [← hlbl]
    exact lineExpenseBucket_zero d.expenses lbl

/-- Witness for the C3 theorem at a concrete input. -/
theorem lineChart_dataSets_all_zero_witness :
    (∀ x ∈ (chartsRow 3 janRevenueDoc).revenuesAndExpensesLineChart.revenueDataSet, x = 0)
      ∧ (∀ x ∈ (chartsRow 3 janRevenueDoc).revenuesAndExpensesLineChart.expensesDataSet,
          x = 0) :=
  lineChart_dataSets_all_zero [janRevenueDoc] "u1" none none 3
    (chartsRow 3 janRevenueDoc) (List.mem_singleton.mpr rfl)

/-- Claim C4 (counterexample): with `startDate = March 10, 2024`, the record
`rangeDoc` (whose "Food" expenses are 10 on March 20 and 5 on March 1)
matches the document-level `$match`, and the doughnut value for "Food"
computed by `getCharts` is 15 — it includes the March 1 expense, which lies
before `startDate` — while the spec-claimed restriction of contributing
entries to `date >= startDate` (`specRestrictedDoughnut`) would give 10. -/
theorem getCharts_range_restriction_counterexample :
    getCharts [rangeDoc] "u1" (some dMar10) none 0 = [chartsRow 0 rangeDoc]
      ∧ (chartsRow 0 rangeDoc).expensesDoughnut.datasets = [0, 0, 15, 0, 0]
      ∧ specRestrictedDoughnut (some dMar10) none rangeDoc = [0, 0, 10, 0, 0]
      ∧ (chartsRow 0 rangeDoc).expensesDoughnut.datasets
          ≠ specRestrictedDoughnut (some dMar10) none rangeDoc :=
  ⟨rfl, by decide, by decide, by decide⟩

/-- Claim C4 (amended): the `startDate`/`endDate` bounds of `getCharts` are
applied as an inclusive document-level match, not as an entry restriction:
a row for a record is returned iff the record's `user` matches and, for
each given bound, some revenue entry and some expense entry of the record
satisfy that bound; the returned row is then computed from all of the
record's entries, regardless of their own dates. -/
theorem getCharts_match_document_level (state : List DashboardDoc) (userId : String)
    (s e : Option SimpleDate) (cm : Nat) (row : ChartsRow) :
    row ∈ getCharts state userId s e cm ↔
      ∃ d, d ∈ state ∧ d.user = userId
        ∧ (∀ sd, s = some sd →
            (∃ r ∈ d.revenues, sd.key ≤ r.date.key)
              ∧ (∃ x ∈ d.expenses, sd.key ≤ x.date.key))
        ∧ (∀ ed, e = some ed →
            (∃ r ∈ d.revenues, r.date.key ≤ ed.key)
              ∧ (∃ x ∈ d.expenses, x.date.key ≤ ed.key))
        ∧ row = chartsRow cm d := by
  constructor
  · intro h
    obtain ⟨d, hd, hrowEq⟩ := List.mem_map.mp h
    obtain ⟨hmem, hp⟩ := List.mem_filter.mp hd
    rw [Bool.and_eq_true, decide_eq_true_iff] at hp
    obtain ⟨h1, h2⟩ := hp
    obtain ⟨hs, he⟩ := (docMatchesRange_iff s e d).mp h2
    exact ⟨d, hmem, h1, hs, he, hrowEq.symm⟩
  · rintro ⟨d, hmem, h1, h2, h3, rfl⟩
    refine List.mem_map.mpr ⟨d, List.mem_filter.mpr ⟨hmem, ?_⟩, rfl⟩
    rw [Bool.and_eq_true, decide_eq_true_iff]
    exact ⟨h1, (docMatchesRange_iff s e d).mpr ⟨h2, h3⟩⟩

/-- Witness for the amended C4 theorem at a concrete input: `rangeDoc`
matches the document-level range match for `startDate = March 10, 2024`. -/
theorem getCharts_match_document_level_witness :
    chartsRow 0 rangeDoc ∈ getCharts [rangeDoc] "u1" (some dMar10) none 0 := by
  refine (getCharts_match_document_level [rangeDoc] "u1" (some dMar10) none 0
    (chartsRow 0 rangeDoc)).mpr ⟨rangeDoc, ?_, rfl, ?_, ?_, rfl⟩
  · decide
  · intro sd hsd
    rw [Option.some_inj] at hsd
    subst hsd
    refine ⟨⟨⟨1, dMar20, "s1"⟩, ?_, ?_⟩, ⟨⟨10, dMar20, "Food"⟩, ?_, ?_⟩⟩ <;> decide
  · intro ed hed
    exact absurd hed (by simp)

end BeBasicSetup

namespace BeBasicSetup

/-- Claim C5: for every state and userId, `createRevenue` with a revenue
whose `source` does not resolve to a user, and `createReceivable` with a
receivable whose `client` does not resolve, fail with the NotFound error
propagated unchanged from the user-lookup collaborator and leave the state
(and hence the dashboard record's collections) exactly as it was. -/
theorem create_referenceNotFound_no_mutation (st : AppState) (userId : String)
    (rev : RevenueEntry) (rc : ReceivableEntry)
    (hrev : rev.source ∉ st.users) (hrc : rc.client ∉ st.users) :
    createRevenue st userId rev = (.error .referenceNotFound, st)
      ∧ createReceivable st userId rc = (.error .referenceNotFound, st) := by
  constructor
  · simp [createRevenue, getUserById, hrev]
  · simp [createReceivable, getUserById, hrc]

/-- Witness for the C5 theorem at a concrete input. -/
theorem create_referenceNotFound_no_mutation_witness :
    createRevenue stEmpty "u1" exRevenue = (.error .referenceNotFound, stEmpty)
      ∧ createReceivable stEmpty "u1" exReceivable = (.error .referenceNotFound, stEmpty) :=
  create_referenceNotFound_no_mutation stEmpty "u1" exRevenue exReceivable
    (by decide) (by decide)

/-- Claim C6: when no dashboard record exists for the given userId (neither
by `_id` nor by `user`), the three create operations fail with
`DashboardDataNotFound` (their reference lookups succeeding), while the two
read operations return an empty result set instead of erroring. -/
theorem no_record_creates_error_reads_empty (st : AppState) (userId : String)
    (rev : RevenueEntry) (rc : ReceivableEntry) (ex : ExpenseEntry)
    (f : DateFilter) (s e : Option SimpleDate) (cm : Nat)
    (hid : ∀ d ∈ st.dashboards, d.idField ≠ userId)
    (huser : ∀ d ∈ st.dashboards, d.user ≠ userId)
    (hrev : rev.source ∈ st.users) (hrc : rc.client ∈ st.users) :
    createRevenue st userId rev = (.error .dashboardDataNotFound, st)
      ∧ createReceivable st userId rc = (.error .dashboardDataNotFound, st)
      ∧ createExpense st userId ex = (.error .dashboardDataNotFound, st)
      ∧ getOverview st.dashboards userId f = []
      ∧ getCharts st.dashboards userId s e cm = [] := by
  have hupd : ∀ g : DashboardDoc → DashboardDoc,
      updateById userId g st.dashboards = none :=
    fun g => updateById_eq_none userId g st.dashboards hid
  refine ⟨?_, ?_, ?_, ?_, ?_⟩
  · simp [createRevenue, getUserById, hrev, hupd]
  · simp [createReceivable, getUserById, hrc, hupd]
  · simp [createExpense, hupd]
  · unfold getOverview
    rw [filter_user_eq_nil st.dashboards userId (docMatchesDateFilter f) huser]
    rfl
  · unfold getCharts
    rw [filter_user_eq_nil st.dashboards userId (docMatchesRange s e) huser]
    rfl

/-- Witness for the C6 theorem at a concrete input. -/
theorem no_record_creates_error_reads_empty_witness :
    createRevenue stUsersOnly "u1" exRevenueOk = (.error .dashboardDataNotFound, stUsersOnly)
      ∧ createReceivable stUsersOnly "u1" exReceivableOk
          = (.error .dashboardDataNotFound, stUsersOnly)
      ∧ createExpense stUsersOnly "u1" exExpense = (.error .dashboardDataNotFound, stUsersOnly)
      ∧ getOverview stUsersOnly.dashboards "u1" DateFilter.noFilter = []
      ∧ getCharts stUsersOnly.dashboards "u1" none none 3 = [] :=
  no_record_creates_error_reads_empty stUsersOnly "u1" exRevenueOk exReceivableOk exExpense
    DateFilter.noFilter none none 3 (by simp [stUsersOnly]) (by simp [stUsersOnly])
    (by decide) (by decide)

/-- Claim C7: the create operations locate the dashboard record by `_id`
while the reads locate it by the `user` field; for a state containing a
record whose `user` equals userId but whose `_id` does not, the three
create operations fail with `DashboardDataNotFound` even though
`getOverview` returns a non-empty result for the same userId. -/
theorem create_id_vs_read_user_mismatch (st : AppState) (userId : String)
    (d : DashboardDoc) (rev : RevenueEntry) (rc : ReceivableEntry) (ex : ExpenseEntry)
    (hd : d ∈ st.dashboards) (hduser : d.user = userId)
    (hid : ∀ x ∈ st.dashboards, x.idField ≠ userId)
    (hrev : rev.source ∈ st.users) (hrc : rc.client ∈ st.users) :
    createRevenue st userId rev = (.error .dashboardDataNotFound, st)
      ∧ createReceivable st userId rc = (.error .dashboardDataNotFound, st)
      ∧ createExpense st userId ex = (.error .dashboardDataNotFound, st)
      ∧ getOverview st.dashboards userId DateFilter.noFilter ≠ [] := by
  have hupd : ∀ g : DashboardDoc → DashboardDoc,
      updateById userId g st.dashboards = none :=
    fun g => updateById_eq_none userId g st.dashboards hid
  refine ⟨?_, ?_, ?_, ?_⟩
  · simp [createRevenue, getUserById, hrev, hupd]
  · simp [createReceivable, getUserById, hrc, hupd]
  · simp [createExpense, hupd]
  · have hmem : overviewRow d ∈ getOverview st.dashboards userId DateFilter.noFilter := by
      refine List.mem_map.mpr ⟨d, List.mem_filter.mpr ⟨hd, ?_⟩, rfl⟩
      simp [hduser, docMatchesDateFilter]
    exact List.ne_nil_of_mem hmem

/-- Witness for the C7 theorem at a concrete input: `stMismatch` holds one
record with `user = "u1"` but `_id = "d42"`. -/
theorem create_id_vs_read_user_mismatch_witness :
    createRevenue stMismatch "u1" exRevenueOk = (.error .dashboardDataNotFound, stMismatch)
      ∧ createReceivable stMismatch "u1" exReceivableOk
          = (.error .dashboardDataNotFound, stMismatch)
      ∧ createExpense stMismatch "u1" exExpense = (.error .dashboardDataNotFound, stMismatch)
      ∧ getOverview stMismatch.dashboards "u1" DateFilter.noFilter ≠ [] :=
  create_id_vs_read_user_mismatch stMismatch "u1" mismatchDoc exRevenueOk exReceivableOk
    exExpense (by decide) rfl (by decide) (by decide) (by decide)

/-- Claim C8: `createExpense` appends with set semantics: calling it a
second time with the same (value-equal) expense returns the same result and
leaves the state exactly as after the first call; and starting from a
record whose expense collection is empty, one call stores the single entry
and the stored collection has length 1. -/
theorem createExpense_set_semantics :
    (∀ (st : AppState) (userId : String) (ex : ExpenseEntry),
        createExpense (createExpense st userId ex).2 userId ex
          = createExpense st userId ex)
      ∧ (∀ (us : List String) (d : DashboardDoc) (userId : String) (ex : ExpenseEntry),
          d.idField = userId → d.expenses = [] →
            (createExpense ⟨us, [d]⟩ userId ex).1 = .ok { d with expenses := [ex] }
              ∧ ((createExpense ⟨us, [d]⟩ userId ex).2).dashboards.map
                  (fun x => x.expenses.length) = [1]) := by
  constructor
  · intro st userId ex
    cases hup : updateById userId (fun x => addToSetExpense x ex) st.dashboards with
    | none =>
      have h1 : createExpense st userId ex = (.error .dashboardDataNotFound, st) := by
        simp [createExpense, hup]
      rw [h1]
      exact h1
    | some p =>
      obtain ⟨d, ds⟩ := p
      have h1 : createExpense st userId ex = (.ok d, ⟨st.users, ds⟩) := by
        simp [createExpense, hup]
      have h2 := updateById_again userId (fun x => addToSetExpense x ex)
        (fun x => addToSetExpense_idField x ex) (fun x => addToSetExpense_idem x ex)
        st.dashboards d ds hup
      rw [h1]
      show createExpense ⟨st.users, ds⟩ userId ex = (.ok d, ⟨st.users, ds⟩)
      simp [createExpense, h2]
  · intro us d userId ex hid hemp
    have hstep : createExpense ⟨us, [d]⟩ userId ex
        = (.ok { d with expenses := [ex] }, ⟨us, [{ d with expenses := [ex] }]⟩) := by
      simp [createExpense, updateById, hid, addToSetExpense, hemp]
    rw [hstep]
    constructor
    · rfl
    · rfl

/-- Witness for the C8 theorem at a concrete input. -/
theorem createExpense_set_semantics_witness :
    createExpense (createExpense ⟨[], [emptyDoc]⟩ "u1" exExpense).2 "u1" exExpense
        = createExpense ⟨[], [emptyDoc]⟩ "u1" exExpense
      ∧ (createExpense ⟨[], [emptyDoc]⟩ "u1" exExpense).1
          = .ok { emptyDoc with expenses := [exExpense] }
      ∧ ((createExpense ⟨[], [emptyDoc]⟩ "u1" exExpense).2).dashboards.map
          (fun x => x.expenses.length) = [1] :=
  ⟨createExpense_set_semantics.1 ⟨[], [emptyDoc]⟩ "u1" exExpense,
   (createExpense_set_semantics.2 [] emptyDoc "u1" exExpense rfl rfl).1,
   (createExpense_set_semantics.2 [] emptyDoc "u1" exExpense rfl rfl).2⟩

/-- Claim C9: for a matched record, `getCharts`' doughnut dataset carries
the fixed expense-category list as labels (in list order) and one value per
category equal to the sum of the record's expense amounts whose category
equals that label exactly; in particular, with zero expense entries every
value is 0. -/
theorem getCharts_doughnut_values (state : List DashboardDoc) (userId : String)
    (cm : Nat) (d : DashboardDoc) (hd : d ∈ state) (hduser : d.user = userId) :
    chartsRow cm d ∈ getCharts state userId none none cm
      ∧ (chartsRow cm d).expensesDoughnut.labels = expenseTypes
      ∧ (chartsRow cm d).expensesDoughnut.datasets
          = expenseTypes.map (specDoughnutValue d.expenses)
      ∧ (d.expenses = [] → (chartsRow cm d).expensesDoughnut.datasets = [0, 0, 0, 0, 0]) := by
  have hds : (chartsRow cm d).expensesDoughnut.datasets
      = expenseTypes.map (doughnutBucket d.expenses) := rfl
  refine ⟨?_, rfl, ?_, ?_⟩
  · refine List.mem_map.mpr ⟨d, List.mem_filter.mpr ⟨hd, ?_⟩, rfl⟩
    simp [hduser, docMatchesRange]
  · rw [hds]
    have hfun : doughnutBucket d.expenses = specDoughnutValue d.expenses :=
      funext (fun t => doughnutBucket_eq_spec d.expenses t)
    rw [hfun]
  · intro hemp
    rw [hds, hemp]
    rfl

/-- Witness for the C9 theorem at a concrete input: `emptyDoc` has zero
expense entries. -/
theorem getCharts_doughnut_values_witness :
    chartsRow 3 emptyDoc ∈ getCharts [emptyDoc] "u1" none none 3
      ∧ (chartsRow 3 emptyDoc).expensesDoughnut.labels = expenseTypes
      ∧ (chartsRow 3 emptyDoc).expensesDoughnut.datasets
          = expenseTypes.map (specDoughnutValue emptyDoc.expenses)
      ∧ (emptyDoc.expenses = []
          → (chartsRow 3 emptyDoc).expensesDoughnut.datasets = [0, 0, 0, 0, 0]) :=
  getCharts_doughnut_values [emptyDoc] "u1" 3 emptyDoc (List.mem_singleton.mpr rfl) rfl

/-- Claim C10: `createExpense` performs no category whitelist check: an
expense whose category is outside the fixed category list is still appended
to the record's expense collection, and the updated record is returned. -/
theorem createExpense_no_whitelist (us : List String) (d : DashboardDoc)
    (ds : List DashboardDoc) (userId : String) (ex : ExpenseEntry)
    (hid : d.idField = userId) (hnotin : ex ∉ d.expenses)
    (hcat : ex.category ∉ expenseTypes) :
    createExpense ⟨us, d :: ds⟩ userId ex
      = (.ok { d with expenses := d.expenses ++ [ex] },
         ⟨us, { d with expenses := d.expenses ++ [ex] } :: ds⟩) := by
  simp [createExpense, updateById, hid, addToSetExpense, hnotin]

/-- Witness for the C10 theorem at a concrete input: the category
"Groceries" of `exExpense` is outside the fixed category list. -/
theorem createExpense_no_whitelist_witness :
    createExpense ⟨[], [emptyDoc]⟩ "u1" exExpense
      = (.ok { emptyDoc with expenses := emptyDoc.expenses ++ [exExpense] },
         ⟨[], [{ emptyDoc with expenses := emptyDoc.expenses ++ [exExpense] }]⟩) :=
  createExpense_no_whitelist [] emptyDoc [] "u1" exExpense rfl (by decide) (by decide)

end BeBasicSetup
